import Mathlib

/-!
Shallow embedding of the prodvision backend (`src/backend/app.py`) for the
authentication / rate-limiting layer, the ingestion pipeline, the video store
and the stale-video sweeper. Machine time (`time.time()`, `datetime.utcnow()`)
is modelled as integer seconds (`Int`); the document database is modelled as a
Lean list of records, with MongoDB's `update_one` result counts and its
type-bracketed `$lte` comparison made explicit; the external password hasher,
JWT library, zero-shot classifier and HTTP upstreams are parameters or
explicit inputs of the embedded functions.
-/

namespace ProdVision

/-- An HTTP error as raised by `HTTPException(status_code=..., detail=...)`. -/
structure HttpError where
  status_code : Nat
  detail : String
deriving DecidableEq

/-! ## Rate limiter (`app.py` lines 33-35, 146-167)

`login_attempts: Dict[str, Tuple[int, float]]` maps a client IP to
`(attempt count, window-start timestamp)`. We embed the dict as an
association list with lookup, overwrite and delete. -/

/-- The in-memory rate-limit table `login_attempts`, modelled as the map
from a client IP to its entry when present. -/
def RateTable := String → Option (Nat × Int)

/-- Dict lookup `login_attempts[client_ip]` / `login_attempts.get(client_ip)`. -/
def lookupIp (t : RateTable) (ip : String) : Option (Nat × Int) := t ip

/-- Dict assignment `login_attempts[client_ip] = v`. -/
def setIp (t : RateTable) (ip : String) (v : Nat × Int) : RateTable :=
  fun x => if x = ip then some v else t x

/-- Dict deletion `del login_attempts[client_ip]` (guarded in the code by an
`in` membership test, which makes the unguarded functional update
equivalent). -/
def delIp (t : RateTable) (ip : String) : RateTable :=
  fun x => if x = ip then none else t x

/-- `RATE_LIMIT_DURATION = 60` (`app.py` line 33). -/
def RATE_LIMIT_DURATION : Int := 60

/-- `MAX_ATTEMPTS = 5` (`app.py` line 34). -/
def MAX_ATTEMPTS : Nat := 5

/-- `check_rate_limit` (`app.py` lines 146-167): reads the entry for the
client IP; resets it to `(1, now)` when the window has elapsed; raises
HTTP 429 with the remaining seconds when `attempts >= MAX_ATTEMPTS` inside
the window; otherwise increments the count (or creates `(1, now)` for a
first attempt). Returns the updated table on the allow paths. -/
def check_rate_limit (table : RateTable) (client_ip : String) (now : Int) :
    Except HttpError RateTable :=
  match lookupIp table client_ip with
  | some (attempts, first_attempt) =>
    if now - first_attempt > RATE_LIMIT_DURATION then
      .ok (setIp table client_ip (1, now))
    else if attempts ≥ MAX_ATTEMPTS then
      .error ⟨429,
        s!"Too many login attempts. Please try again in {RATE_LIMIT_DURATION - (now - first_attempt)} seconds"⟩
    else
      .ok (setIp table client_ip (attempts + 1, first_attempt))
  | none => .ok (setIp table client_ip (1, now))

/-! ## Users, tokens and login (`app.py` lines 101-253) -/

/-- The stored user record (`User` model, `app.py` lines 108-111). -/
structure UserRec where
  email : String
  name : String
  hashed_password : String
deriving DecidableEq

/-- `get_user` (`app.py` lines 141-143): `db.users.find_one({"email": email})`. -/
def get_user (users : List UserRec) (email : String) : Option UserRec :=
  users.find? (fun u => u.email == email)

/-- `ACCESS_TOKEN_EXPIRE_MINUTES = 30` (`app.py` line 28). -/
def ACCESS_TOKEN_EXPIRE_MINUTES : Int := 30

/-- The claims a token carries (`sub`, `name`, `exp`, `iat`, `client_ip`;
the random `jti` is irrelevant to the claims and omitted). `sub` is optional
because `validate` must handle tokens lacking a subject. -/
structure TokenPayload where
  sub : Option String
  name : String
  exp : Int
  iat : Int
  client_ip : String
deriving DecidableEq

/-- A JWT as seen by the `jose` library: either a well-formed token signed
with some key, or a malformed string. -/
inductive Jwt where
  | signed (payload : TokenPayload) (key : String)
  | malformed (raw : String)
deriving DecidableEq

/-- `create_access_token` (`app.py` lines 236-253): sets
`exp = now + 30 minutes`, keeps the caller-supplied `sub`, `name` and
`client_ip`, and signs with `SECRET_KEY`. -/
def create_access_token (key : String) (sub name client_ip : String) (now : Int) : Jwt :=
  .signed
    { sub := some sub
      name := name
      exp := now + ACCESS_TOKEN_EXPIRE_MINUTES * 60
      iat := now
      client_ip := client_ip } key

/-- Result of `jose.jwt.decode`: the payload, or the two exception classes
the code catches. Modelled from the library contract the code relies on:
signature is verified first (wrong key or malformed raw data raise
`JWTError`), then the `exp` claim (a token is expired once `now ≥ exp`,
raising `ExpiredSignatureError`). -/
inductive DecodeResult where
  | ok (payload : TokenPayload)
  | expiredSignatureError
  | jwtError
deriving DecidableEq

/-- `jwt.decode(token, SECRET_KEY, algorithms=[ALGORITHM])` as used at
`app.py` line 257. -/
def jwt_decode (token : Jwt) (key : String) (now : Int) : DecodeResult :=
  match token with
  | .malformed _ => .jwtError
  | .signed payload k =>
    if k ≠ key then .jwtError
    else if now ≥ payload.exp then .expiredSignatureError
    else .ok payload

/-- The token-validation part of `get_current_user` (`app.py` lines 255-277):
decode, map `ExpiredSignatureError` and `JWTError` to distinct 401 errors,
and reject a payload whose `sub` is missing. Returns the subject email. -/
def token_validate (token : Jwt) (key : String) (now : Int) :
    Except HttpError String :=
  match jwt_decode token key now with
  | .expiredSignatureError => .error ⟨401, "Token has expired"⟩
  | .jwtError => .error ⟨401, "Could not validate credentials"⟩
  | .ok payload =>
    match payload.sub with
    | none => .error ⟨401, "Invalid authentication credentials"⟩
    | some email => .ok email

/-- `get_current_user` (`app.py` lines 255-286): token validation followed by
re-fetching the user record. -/
def get_current_user (users : List UserRec) (token : Jwt) (key : String) (now : Int) :
    Except HttpError UserRec :=
  match token_validate token key now with
  | .error e => .error e
  | .ok email =>
    match get_user users email with
    | none => .error ⟨401, "User not found"⟩
    | some u => .ok u

/-- Python's `str.lower()`, as a character-wise map (the emails and names
involved are ASCII). -/
def pyLower (s : String) : String := ⟨s.data.map Char.toLower⟩

/-- Python's `str.strip()`: remove leading and trailing whitespace. -/
def pyStrip (s : String) : String :=
  ⟨((s.data.dropWhile Char.isWhitespace).reverse.dropWhile Char.isWhitespace).reverse⟩

/-- The success payload of `login` (`app.py` lines 217-225). -/
structure LoginOk where
  access_token : Jwt
  token_type : String
  expires_in : Int
  userEmail : String
  userName : String
deriving DecidableEq

/-- `login` (`app.py` lines 170-233). `pwdVerify` is the external
`pwd_context.verify`. Returns the HTTP outcome together with the rate-limit
table after the request. The password-failure branch re-reads the table with
default `(0, now)` and increments once more; the success branch deletes the
IP's entry. -/
def login (key : String) (pwdVerify : String → String → Bool) (users : List UserRec)
    (table : RateTable) (client_ip username password : String) (now : Int) :
    Except HttpError LoginOk × RateTable :=
  match check_rate_limit table client_ip now with
  | .error e => (.error e, table)
  | .ok t1 =>
    let email := pyStrip (pyLower username)
    match get_user users email with
    | none => (.error ⟨401, "Email not registered"⟩, t1)
    | some user =>
      if !pwdVerify password user.hashed_password then
        let ca := (lookupIp t1 client_ip).getD (0, now)
        (.error ⟨401, "Incorrect password"⟩, setIp t1 client_ip (ca.1 + 1, ca.2))
      else
        (.ok
          { access_token := create_access_token key user.email user.name client_ip now
            token_type := "bearer"
            expires_in := ACCESS_TOKEN_EXPIRE_MINUTES * 60
            userEmail := user.email
            userName := user.name },
          delIp t1 client_ip)

/-! ## Registration (`app.py` lines 113-116, 289-341) -/

/-- A stored user document as written by `register` (the `created_at`
timestamp is carried as well). -/
structure StoredUser where
  email : String
  name : String
  hashed_password : String
  created_at : Int
deriving DecidableEq

/-- `any(char.isdigit() for char in password)` (`app.py` line 300). -/
def hasDigit (s : String) : Bool := s.data.any Char.isDigit

/-- `any(char.isupper() for char in password)` (`app.py` line 305). -/
def hasUpper (s : String) : Bool := s.data.any Char.isUpper

/-- `register` handler body (`app.py` lines 289-341), after request-model
validation: rejects when a user with the lowercased email already exists,
then when the password lacks a digit, then when it lacks an uppercase
letter; otherwise inserts the lowercased email with the hashed password and
returns the normalized email. `hash` is the external `pwd_context.hash`.
Returns the HTTP outcome (the normalized email on success) together with the
user store after the request. -/
def register (hash : String → String) (users : List StoredUser)
    (email name password : String) (now : Int) :
    Except HttpError String × List StoredUser :=
  if (users.find? (fun u => u.email == pyLower email)).isSome then
    (.error ⟨400, "Email already registered"⟩, users)
  else if !hasDigit password then
    (.error ⟨400, "Password must contain at least one number"⟩, users)
  else if !hasUpper password then
    (.error ⟨400, "Password must contain at least one uppercase letter"⟩, users)
  else
    (.ok (pyLower email),
      users ++ [{ email := pyLower email, name := name,
                  hashed_password := hash password, created_at := now }])

/-- The raw body of a `POST /api/auth/register` request, before pydantic
validation. -/
structure UserCreateRaw where
  email : String
  name : String
  password : String

/-- The `UserCreate` request model's validation (`app.py` lines 113-116):
`email: EmailStr`, `name: Field(min_length=2, max_length=50)`,
`password: Field(min_length=6, max_length=50)`. `emailOk` is pydantic's
external `EmailStr` syntax check. -/
def userCreateValid (emailOk : String → Bool) (u : UserCreateRaw) : Bool :=
  emailOk u.email
    && 2 ≤ u.name.length && u.name.length ≤ 50
    && 6 ≤ u.password.length && u.password.length ≤ 50

/-- The full `POST /api/auth/register` endpoint: FastAPI validates the body
against `UserCreate` first and answers 422 on a validation failure without
ever entering the handler; otherwise the handler runs. -/
def register_endpoint (emailOk : String → Bool) (hash : String → String)
    (users : List StoredUser) (u : UserCreateRaw) (now : Int) :
    Except HttpError String × List StoredUser :=
  if !userCreateValid emailOk u then
    (.error ⟨422, "validation error"⟩, users)
  else
    register hash users u.email u.name u.password now

/-! ## Video store, genre classifier, ingesters and sweeper
(`app.py` lines 343-613) -/

/-- A BSON field value as stored for `savedAt`: the YouTube ingester stores
a `datetime` (BSON date), the Instagram ingester stores
`datetime.utcnow().isoformat()` (a BSON string). -/
inductive BsonValue where
  | date (t : Int)
  | str (s : String)
deriving DecidableEq

/-- A video document as inserted into `db.videos`. -/
structure VideoDoc where
  id : String
  title : String
  thumbnail : Option String
  platform : String
  genre : String
  savedAt : BsonValue
  watchStatus : String
  userId : String
  description : String
  originalUrl : Option String
deriving DecidableEq

/-- Outcome of one call to the external zero-shot classifier pipeline:
either the ranked label list of `result["labels"]`, or a raised exception. -/
inductive ClassifierOutcome where
  | ok (labels : List String)
  | exc
deriving DecidableEq

/-- `genre_mapping` (`app.py` lines 397-408). -/
def genre_mapping : List (String × String) :=
  [("Music and Entertainment", "music"),
   ("Gaming and Esports", "gaming"),
   ("Education and Learning", "education"),
   ("Technology and Programming", "technology"),
   ("Lifestyle and Vlogs", "lifestyle"),
   ("Sports and Fitness", "sports"),
   ("News and Politics", "news"),
   ("Arts and Creativity", "arts"),
   ("Science and Nature", "science"),
   ("Food and Cooking", "food")]

/-- `classify_video_genre` (`app.py` lines 370-415) given the classifier
call's outcome: a raised exception is caught and yields `"other"`; an empty
label list makes `result["labels"][0]` raise `IndexError`, also caught,
yielding `"other"`; otherwise the top label is mapped through
`genre_mapping.get(top_label, "other")`. -/
def classify_video_genre (outcome : ClassifierOutcome) : String :=
  match outcome with
  | .exc => "other"
  | .ok [] => "other"
  | .ok (top :: _) =>
    ((genre_mapping.find? (fun p => p.1 == top)).map (fun p => p.2)).getD "other"

/-- The `thumbnails` object of a YouTube snippet: the `url` of each of the
four possible resolutions, when present. -/
structure YTThumbs where
  maxres : Option String
  high : Option String
  medium : Option String
  defaultThumb : Option String
deriving DecidableEq

/-- Python's `a or b` over `.get(...)` results: falls through on `None` and
on a falsy (empty) string. -/
def pyOr (a b : Option String) : Option String :=
  match a with
  | some s => if s = "" then b else some s
  | none => b

/-- Thumbnail selection (`app.py` lines 459-465): maxres, else high, else
medium, else default. -/
def selectThumb (t : YTThumbs) : Option String :=
  pyOr t.maxres (pyOr t.high (pyOr t.medium t.defaultThumb))

/-- One item's `snippet` from the YouTube playlist-items response
(`description` defaulted to `""` as by `snippet.get("description", "")`). -/
structure YTSnippet where
  videoId : String
  title : String
  description : String
  thumbnails : YTThumbs
deriving DecidableEq

/-- The upstream playlist-items HTTP response: status code and the parsed
`items` list (empty when the key is absent, as `data.get("items")` treats
a missing key like an empty list here). -/
structure YTResponse where
  status_code : Nat
  items : List YTSnippet
deriving DecidableEq

/-- `startsWithChars s p`: the character list `s` starts with `p`. -/
def startsWithChars : List Char → List Char → Bool
  | _, [] => true
  | [], _ :: _ => false
  | c :: cs, p :: ps => c == p && startsWithChars cs ps

/-- `containsSub s p`: `p` occurs as a contiguous substring of `s`. -/
def containsSub : List Char → List Char → Bool
  | [], pat => pat.isEmpty
  | c :: rest, pat => startsWithChars (c :: rest) pat || containsSub rest pat

/-- Python's `"list=" in url` substring test. -/
def hasListParam (url : String) : Bool :=
  containsSub url.data "list=".data

/-- The video dict built for one YouTube item (`app.py` lines 449-478).
`oracle` maps the classifier call's `(title, description)` input to the
external classifier's outcome. -/
def mkYtVideo (oracle : String → String → ClassifierOutcome)
    (userEmail : String) (now : Int) (item : YTSnippet) : VideoDoc :=
  { id := item.videoId
    title := item.title
    thumbnail := selectThumb item.thumbnails
    platform := "youtube"
    genre := classify_video_genre (oracle item.title item.description)
    savedAt := .date now
    watchStatus := "unwatched"
    userId := userEmail
    description := item.description
    originalUrl := none }

/-- Outcome of the YouTube ingestion endpoint: the HTTP result (the number
of inserted videos on success), the video store after the request, and
whether the upstream API was called at all. -/
structure YTOutcome where
  result : Except HttpError Nat
  store : List VideoDoc
  upstreamCalled : Bool

/-- `add_youtube_playlist` (`app.py` lines 417-496): URL must contain
`list=` else 400 with no upstream call; upstream 403 maps to 403, any other
non-200 to 400, empty `items` to 404; otherwise one video per item is built
and batch-inserted. `resp` is the upstream response the API would return. -/
def add_youtube_playlist (url : String) (resp : YTResponse)
    (oracle : String → String → ClassifierOutcome)
    (store : List VideoDoc) (userEmail : String) (now : Int) : YTOutcome :=
  if !hasListParam url then
    ⟨.error ⟨400, "Invalid YouTube playlist URL"⟩, store, false⟩
  else if resp.status_code == 403 then
    ⟨.error ⟨403, "YouTube API key is invalid or quota exceeded"⟩, store, true⟩
  else if resp.status_code != 200 then
    ⟨.error ⟨400, "Failed to fetch playlist. Please check the URL and try again."⟩, store, true⟩
  else if resp.items.isEmpty then
    ⟨.error ⟨404, "No videos found in playlist"⟩, store, true⟩
  else
    let videos := resp.items.map (mkYtVideo oracle userEmail now)
    if !videos.isEmpty then
      ⟨.ok videos.length, store ++ videos, true⟩
    else
      ⟨.error ⟨404, "No valid videos found in playlist"⟩, store, true⟩

/-- `datetime.utcnow().isoformat()` on the model's integer clock: the exact
rendering is irrelevant, only that the stored value is a BSON string. -/
def isoformat (t : Int) : String := toString t

/-- The parsed body of the Instagram media-lookup response. -/
structure IGData where
  id : String
  media_type : String
  thumbnail_url : Option String
  permalink : String
  caption : String
deriving DecidableEq

/-- The video dict built by `add_instagram_video` (`app.py` lines 545-556):
caption truncated to 100 chars plus ellipsis when longer, genre classified
from the caption alone, and `savedAt` stored as the ISO-format STRING
`datetime.utcnow().isoformat()`. -/
def mkInstagramVideo (oracle : String → String → ClassifierOutcome)
    (userEmail : String) (now : Int) (data : IGData) : VideoDoc :=
  { id := data.id
    title := if data.caption.length > 100 then data.caption.take 100 ++ "..." else data.caption
    thumbnail := some (data.thumbnail_url.getD "")
    platform := "instagram"
    genre := classify_video_genre (oracle data.caption "")
    savedAt := .str (isoformat now)
    watchStatus := "unwatched"
    userId := userEmail
    description := data.caption
    originalUrl := some data.permalink }

/-- Result counts of MongoDB's `update_one`. -/
structure UpdateResult where
  matched_count : Nat
  modified_count : Nat
deriving DecidableEq

/-- `db.videos.update_one({"id": vid, "userId": uid}, {"$set": {"watchStatus": st}})`
(`app.py` lines 584-587), under MongoDB semantics: the first document
matching the filter is counted as matched; it is counted as modified only
when the `$set` actually changes the stored value. -/
def update_one_watch : List VideoDoc → String → String → String →
    UpdateResult × List VideoDoc
  | [], _, _, _ => (⟨0, 0⟩, [])
  | v :: rest, vid, uid, st =>
    if v.id == vid && v.userId == uid then
      if v.watchStatus == st then (⟨1, 0⟩, v :: rest)
      else (⟨1, 1⟩, { v with watchStatus := st } :: rest)
    else
      let r := update_one_watch rest vid uid st
      (r.1, v :: r.2)

/-- `update_watch_status` (`app.py` lines 579-592): a status outside
`{"watched", "unwatched"}` is rejected with 400 before any store access;
otherwise `update_one` runs scoped by video id AND owner email, and a zero
`modified_count` yields 404. -/
def update_watch_status (store : List VideoDoc) (video_id st userEmail : String) :
    Except HttpError String × List VideoDoc :=
  if !(st == "watched" || st == "unwatched") then
    (.error ⟨400, "Invalid watch status"⟩, store)
  else
    let r := update_one_watch store video_id userEmail st
    if r.1.modified_count == 0 then
      (.error ⟨404, "Video not found"⟩, r.2)
    else
      (.ok "Watch status updated", r.2)

/-- `two_weeks_ago = datetime.utcnow() - timedelta(days=14)` (`app.py`
line 600). -/
def two_weeks_ago (now : Int) : Int := now - 14 * 86400

/-- MongoDB's `{"savedAt": {"$lte": <date>}}` predicate: comparison query
operators are type-bracketed, so a date-valued `$lte` matches date-typed
fields only — a string `savedAt` never matches. -/
def bsonDateLte (v : BsonValue) (bound : Int) : Bool :=
  match v with
  | .date t => t ≤ bound
  | .str _ => false

/-- The query of one sweep iteration of `check_unwatched_videos`
(`app.py` lines 600-604): all videos with `watchStatus = "unwatched"` and
`savedAt $lte now - 14 days`. -/
def check_unwatched_videos_query (store : List VideoDoc) (now : Int) : List VideoDoc :=
  store.filter (fun v => v.watchStatus == "unwatched" && bsonDateLte v.savedAt (two_weeks_ago now))

/-- The `(user_email, video_title)` pairs handed to `send_notification` in
one sweep iteration (`app.py` lines 606-607). -/
def sweep_notifications (store : List VideoDoc) (now : Int) : List (String × String) :=
  (check_unwatched_videos_query store now).map (fun v => (v.userId, v.title))

/-! ## Helper lemmas -/

theorem lookupIp_setIp_self (t : RateTable) (ip : String) (v : Nat × Int) :
    lookupIp (setIp t ip v) ip = some v := by
  simp [lookupIp, setIp]

theorem lookupIp_delIp_self (t : RateTable) (ip : String) :
    lookupIp (delIp t ip) ip = none := by
  simp [lookupIp, delIp]

theorem check_rate_limit_error_status (table : RateTable) (ip : String) (now : Int)
    (e : HttpError) (h : check_rate_limit table ip now = .error e) :
    e.status_code = 429 := by
  unfold check_rate_limit at h
  cases hl : lookupIp table ip with
  | none => rw [hl] at h; simp at h
  | some v =>
    rw [hl] at h
    obtain ⟨a, t0⟩ := v
    simp only at h
    by_cases h1 : now - t0 > RATE_LIMIT_DURATION
    · rw [if_pos h1] at h; simp at h
    · rw [if_neg h1] at h
      by_cases h2 : a ≥ MAX_ATTEMPTS
      · rw [if_pos h2] at h
        simp only [Except.error.injEq] at h
        subst h; rfl
      · rw [if_neg h2] at h; simp at h

theorem check_rate_limit_ok_cases (table : RateTable) (ip : String) (now : Int)
    (t1 : RateTable) (h : check_rate_limit table ip now = .ok t1) :
    (∃ a t0, lookupIp table ip = some (a, t0) ∧ now - t0 ≤ 60 ∧ a < 5 ∧
      t1 = setIp table ip (a + 1, t0)) ∨
    (∃ a t0, lookupIp table ip = some (a, t0) ∧ 60 < now - t0 ∧
      t1 = setIp table ip (1, now)) ∨
    (lookupIp table ip = none ∧ t1 = setIp table ip (1, now)) := by
  unfold check_rate_limit at h
  cases hl : lookupIp table ip with
  | none =>
    rw [hl] at h
    simp only [Except.ok.injEq] at h
    exact Or.inr (Or.inr ⟨rfl, h.symm⟩)
  | some v =>
    rw [hl] at h
    obtain ⟨a, t0⟩ := v
    simp only at h
    by_cases h1 : now - t0 > RATE_LIMIT_DURATION
    · rw [if_pos h1] at h
      simp only [Except.ok.injEq] at h
      exact Or.inr (Or.inl ⟨a, t0, rfl,
        by simp only [RATE_LIMIT_DURATION] at h1; omega, h.symm⟩)
    · rw [if_neg h1] at h
      by_cases h2 : a ≥ MAX_ATTEMPTS
      · rw [if_pos h2] at h; simp at h
      · rw [if_neg h2] at h
        simp only [Except.ok.injEq] at h
        exact Or.inl ⟨a, t0, rfl,
          by simp only [RATE_LIMIT_DURATION] at h1; omega,
          by simp only [MAX_ATTEMPTS] at h2; omega, h.symm⟩

/-! ## Claims -/

/-- C1: for an IP with 5 attempts recorded inside the 60-second window, the
next rate-limit check rejects with HTTP 429 carrying the remaining seconds
in its message; once more than 60 seconds have elapsed since the window
start, the next check resets the entry to `(1, now)` and allows. -/
theorem c1_rate_limit_reject_and_reset (table : RateTable) (ip : String) (t0 now : Int)
    (hentry : lookupIp table ip = some (5, t0)) :
    (now - t0 ≤ 60 →
      check_rate_limit table ip now =
        .error ⟨429, s!"Too many login attempts. Please try again in {60 - (now - t0)} seconds"⟩) ∧
    (60 < now - t0 →
      ∃ t1, check_rate_limit table ip now = .ok t1 ∧ lookupIp t1 ip = some (1, now)) := by
  constructor
  · intro h
    unfold check_rate_limit
    rw [hentry]
    simp only
    rw [if_neg (by simp only [RATE_LIMIT_DURATION]; omega)]
    rw [if_pos (by norm_num [MAX_ATTEMPTS])]
    rfl
  · intro h
    refine ⟨setIp table ip (1, now), ?_, lookupIp_setIp_self table ip (1, now)⟩
    unfold check_rate_limit
    rw [hentry]
    simp only
    rw [if_pos (by simp only [RATE_LIMIT_DURATION]; omega)]

/-- C1 witness: on the concrete table with entry `(5, 0)` for `10.0.0.9`,
the check at `now = 30` rejects with the 30-seconds-left message and the
check at `now = 61` resets the entry to `(1, 61)`. -/
theorem c1_rate_limit_reject_and_reset_witness :
    (check_rate_limit (fun x => if x = "10.0.0.9" then some (5, 0) else none) "10.0.0.9" 30 =
      .error ⟨429, "Too many login attempts. Please try again in 30 seconds"⟩) ∧
    (∃ t1, check_rate_limit (fun x => if x = "10.0.0.9" then some (5, 0) else none) "10.0.0.9" 61 =
      .ok t1 ∧ lookupIp t1 "10.0.0.9" = some (1, 61)) := by
  constructor
  · have h := (c1_rate_limit_reject_and_reset
      (fun x => if x = "10.0.0.9" then some (5, 0) else none) "10.0.0.9" 0 30 (by decide)).1
      (by norm_num)
    exact h.trans (congrArg Except.error (by decide))
  · exact (c1_rate_limit_reject_and_reset
      (fun x => if x = "10.0.0.9" then some (5, 0) else none) "10.0.0.9" 0 61 (by decide)).2
      (by norm_num)

/-- C2 (amended): for every login request answered "Incorrect password"
(it passed the rate-limit check and failed verification): when the IP's
entry before the request was `(a, t0)` with the window not yet elapsed, the
entry ends the request at `(a + 2, t0)` — counter exactly 2 higher, window
start unchanged; when there was no entry, or the entry's window had
elapsed, the entry ends the request at `(2, now)`. For every login request
that succeeds, the rate-limit entry for the IP is deleted from the table. -/
theorem c2_failed_login_double_count_and_success_clear
    (key : String) (pwdVerify : String → String → Bool) (users : List UserRec)
    (table : RateTable) (ip username password : String) (now : Int) :
    ((login key pwdVerify users table ip username password now).1 =
        .error ⟨401, "Incorrect password"⟩ →
      (∀ a t0, lookupIp table ip = some (a, t0) → now - t0 ≤ 60 →
        lookupIp (login key pwdVerify users table ip username password now).2 ip =
          some (a + 2, t0)) ∧
      ((lookupIp table ip = none ∨
          ∃ a t0, lookupIp table ip = some (a, t0) ∧ 60 < now - t0) →
        lookupIp (login key pwdVerify users table ip username password now).2 ip =
          some (2, now))) ∧
    (∀ res, (login key pwdVerify users table ip username password now).1 = .ok res →
      lookupIp (login key pwdVerify users table ip username password now).2 ip = none) := by
  cases hc : check_rate_limit table ip now with
  | error e =>
    have h429 := check_rate_limit_error_status table ip now e hc
    refine ⟨fun hfail => absurd h429 ?_, fun res hok => absurd hok ?_⟩
    · simp only [login, hc] at hfail
      simp only [Except.error.injEq] at hfail
      rw [hfail]
      decide
    · simp only [login, hc]
      simp
  | ok t1 =>
    constructor
    · intro hfail
      cases hu : get_user users (pyStrip (pyLower username)) with
      | none =>
        exfalso
        simp only [login, hc, hu] at hfail
        simp only [Except.error.injEq] at hfail
        exact absurd hfail (by decide)
      | some user =>
        cases hv : pwdVerify password user.hashed_password with
        | true =>
          exfalso
          simp only [login, hc, hu, hv] at hfail
          simp at hfail
        | false =>
          have hred : (login key pwdVerify users table ip username password now).2 =
              setIp t1 ip (((lookupIp t1 ip).getD (0, now)).1 + 1,
                ((lookupIp t1 ip).getD (0, now)).2) := by
            simp only [login, hc, hu, hv, Bool.not_false, if_true]
          constructor
          · intro a t0 hl hwin
            rcases check_rate_limit_ok_cases table ip now t1 hc with
              ⟨a', t0', hl', _hw', _ha', ht1⟩ | ⟨a', t0', hl', hw', _ht1⟩ | ⟨hl', _⟩
            · have := hl.symm.trans hl'
              simp only [Option.some.injEq, Prod.mk.injEq] at this
              obtain ⟨rfl, rfl⟩ := this
              rw [hred, ht1]
              simp only [lookupIp_setIp_self, Option.getD_some]
            · have := hl.symm.trans hl'
              simp only [Option.some.injEq, Prod.mk.injEq] at this
              obtain ⟨rfl, rfl⟩ := this
              omega
            · rw [hl] at hl'
              exact absurd hl' (by simp)
          · intro hcase
            rcases check_rate_limit_ok_cases table ip now t1 hc with
              ⟨a', t0', hl', hw', _ha', _ht1⟩ | ⟨a', t0', hl', _hw', ht1⟩ | ⟨hl', ht1⟩
            · exfalso
              rcases hcase with hnone | ⟨a, t0, hl, hw⟩
              · rw [hl'] at hnone
                exact absurd hnone (by simp)
              · have := hl.symm.trans hl'
                simp only [Option.some.injEq, Prod.mk.injEq] at this
                obtain ⟨rfl, rfl⟩ := this
                omega
            · rw [hred, ht1]
              simp only [lookupIp_setIp_self, Option.getD_some]
            · rw [hred, ht1]
              simp only [lookupIp_setIp_self, Option.getD_some]
    · intro res hok
      cases hu : get_user users (pyStrip (pyLower username)) with
      | none =>
        exfalso
        simp only [login, hc, hu] at hok
        simp at hok
      | some user =>
        cases hv : pwdVerify password user.hashed_password with
        | false =>
          exfalso
          simp only [login, hc, hu, hv] at hok
          simp at hok
        | true =>
          simp only [login, hc, hu, hv, Bool.not_true, if_false]
          exact lookupIp_delIp_self t1 ip

/-- C2 counterexample: a failed login whose IP entry's 60-second window has
already elapsed passes the rate-limit check (reset branch), yet its entry
ends the request at `(2, now)` — not 2 higher than the previous count 3,
and with a new window start — refuting the unqualified claim. -/
theorem c2_counterexample_elapsed_window_reset :
    (login "k" (fun _ _ => false) [{ email := "u@x.com", name := "U", hashed_password := "h" }]
        (fun x => if x = "9.9.9.9" then some (3, 0) else none)
        "9.9.9.9" "u@x.com" "pw" 61).1 = .error ⟨401, "Incorrect password"⟩ ∧
    lookupIp (login "k" (fun _ _ => false) [{ email := "u@x.com", name := "U", hashed_password := "h" }]
        (fun x => if x = "9.9.9.9" then some (3, 0) else none)
        "9.9.9.9" "u@x.com" "pw" 61).2 "9.9.9.9" = some (2, 61) ∧
    ¬ lookupIp (login "k" (fun _ _ => false) [{ email := "u@x.com", name := "U", hashed_password := "h" }]
        (fun x => if x = "9.9.9.9" then some (3, 0) else none)
        "9.9.9.9" "u@x.com" "pw" 61).2 "9.9.9.9" = some (3 + 2, 0) := by
  refine ⟨rfl, by decide, by decide⟩

/-- C2 witness: for an in-window entry `(2, 0)` at `now = 30`, the failed
login ends with the entry at `(4, 0)`; with a correct password the entry is
deleted. -/
theorem c2_failed_login_double_count_witness :
    lookupIp (login "k" (fun _ _ => false) [{ email := "u@x.com", name := "U", hashed_password := "h" }]
        (fun x => if x = "7.7.7.7" then some (2, 0) else none)
        "7.7.7.7" "u@x.com" "pw" 30).2 "7.7.7.7" = some (2 + 2, 0) ∧
    lookupIp (login "k" (fun _ _ => true) [{ email := "u@x.com", name := "U", hashed_password := "h" }]
        (fun x => if x = "7.7.7.7" then some (2, 0) else none)
        "7.7.7.7" "u@x.com" "pw" 30).2 "7.7.7.7" = none := by
  constructor
  · exact ((c2_failed_login_double_count_and_success_clear "k" (fun _ _ => false)
      [{ email := "u@x.com", name := "U", hashed_password := "h" }]
      (fun x => if x = "7.7.7.7" then some (2, 0) else none)
      "7.7.7.7" "u@x.com" "pw" 30).1 rfl).1 2 0 (by decide) (by norm_num)
  · exact (c2_failed_login_double_count_and_success_clear "k" (fun _ _ => true)
      [{ email := "u@x.com", name := "U", hashed_password := "h" }]
      (fun x => if x = "7.7.7.7" then some (2, 0) else none)
      "7.7.7.7" "u@x.com" "pw" 30).2
      { access_token := create_access_token "k" "u@x.com" "U" "7.7.7.7" 30
        token_type := "bearer"
        expires_in := 1800
        userEmail := "u@x.com"
        userName := "U" } rfl

/-- C4: with a password holding at least one digit and one uppercase letter,
registration of a fresh email succeeds, returns the lowercased email, and
appends the lowercased record; a second registration with the same email in
any letter case fails with 400 "Email already registered" and leaves the
user store unchanged. -/
theorem c4_register_once_per_lowercased_email
    (hash : String → String) (users : List StoredUser)
    (e1 n1 p1 e2 n2 p2 : String) (now1 now2 : Int)
    (hd1 : hasDigit p1 = true) (hu1 : hasUpper p1 = true)
    (_hd2 : hasDigit p2 = true) (_hu2 : hasUpper p2 = true)
    (hfresh : ∀ u ∈ users, u.email ≠ pyLower e1)
    (hcase : pyLower e2 = pyLower e1) :
    (register hash users e1 n1 p1 now1).1 = .ok (pyLower e1) ∧
    (register hash users e1 n1 p1 now1).2 =
      users ++ [{ email := pyLower e1, name := n1, hashed_password := hash p1,
                  created_at := now1 }] ∧
    (register hash (register hash users e1 n1 p1 now1).2 e2 n2 p2 now2).1 =
      .error ⟨400, "Email already registered"⟩ ∧
    (register hash (register hash users e1 n1 p1 now1).2 e2 n2 p2 now2).2 =
      (register hash users e1 n1 p1 now1).2 := by
  have hfind : users.find? (fun u => u.email == pyLower e1) = none := by
    rw [List.find?_eq_none]
    intro u hu
    simpa using hfresh u hu
  have h1 : register hash users e1 n1 p1 now1 =
      (.ok (pyLower e1),
        users ++ [{ email := pyLower e1, name := n1, hashed_password := hash p1,
                    created_at := now1 }]) := by
    simp [register, hfind, hd1, hu1]
  have hfind2 : ((users ++ [StoredUser.mk (pyLower e1) n1 (hash p1) now1]).find?
      (fun u => u.email == pyLower e2)).isSome = true := by
    rw [List.find?_isSome]
    refine ⟨StoredUser.mk (pyLower e1) n1 (hash p1) now1, by simp, ?_⟩
    simp [hcase]
  have h2 : register hash (users ++ [StoredUser.mk (pyLower e1) n1 (hash p1) now1]) e2 n2 p2 now2 =
      (.error ⟨400, "Email already registered"⟩,
        users ++ [{ email := pyLower e1, name := n1, hashed_password := hash p1,
                    created_at := now1 }]) := by
    simp only [register, hfind2, if_true]
  refine ⟨by rw [h1], by rw [h1], ?_, ?_⟩
  · rw [h1]
    simp only
    rw [h2]
  · rw [h1]
    simp only
    rw [h2]

/-- C4 witness: registering `A@B.com` on an empty store succeeds with
`a@b.com`; re-registering as `a@b.COM` fails with "Email already
registered". -/
theorem c4_register_once_per_lowercased_email_witness :
    (register (fun _ => "H") [] "A@B.com" "Bob" "Secret1" 0).1 = .ok "a@b.com" ∧
    (register (fun _ => "H")
        (register (fun _ => "H") [] "A@B.com" "Bob" "Secret1" 0).2
        "a@b.COM" "Rob" "Secret2" 1).1 = .error ⟨400, "Email already registered"⟩ := by
  have h := c4_register_once_per_lowercased_email (fun _ => "H") [] "A@B.com" "Bob"
    "Secret1" "a@b.COM" "Rob" "Secret2" 0 1 (by decide) (by decide) (by decide) (by decide)
    (by simp) (by decide)
  exact ⟨h.1.trans (congrArg Except.ok (by decide)), h.2.2.1⟩

/-- C10: any request whose password is shorter than 6 or longer than 50
characters, whose name is shorter than 2 or longer than 50 characters, or
whose email fails the syntactic email check, is rejected by model
validation with 422 for every user store, hash function and duplicate or
password-content situation — before the handler's checks can run — leaving
the store unchanged. -/
theorem c10_model_validation_bounds
    (emailOk : String → Bool) (hash : String → String) (users : List StoredUser)
    (u : UserCreateRaw) (now : Int)
    (hbad : u.password.length < 6 ∨ 50 < u.password.length ∨
      u.name.length < 2 ∨ 50 < u.name.length ∨ emailOk u.email = false) :
    register_endpoint emailOk hash users u now =
      (.error ⟨422, "validation error"⟩, users) := by
  have hval : userCreateValid emailOk u = false := by
    cases hq : userCreateValid emailOk u
    · rfl
    · exfalso
      unfold userCreateValid at hq
      simp only [Bool.and_eq_true, decide_eq_true_eq] at hq
      obtain ⟨⟨⟨⟨he, hn1⟩, hn2⟩, hp1⟩, hp2⟩ := hq
      rcases hbad with h | h | h | h | h
      · omega
      · omega
      · omega
      · omega
      · rw [h] at he
        exact Bool.false_ne_true he
  simp only [register_endpoint, hval, Bool.not_false, if_true]

/-- C10 witness: a 3-character password is rejected with 422 on an empty
store even though it contains a digit and an uppercase letter. -/
theorem c10_model_validation_bounds_witness :
    register_endpoint (fun _ => true) (fun _ => "H") []
      { email := "a@b.c", name := "Bob", password := "A1x" } 0 =
      (.error ⟨422, "validation error"⟩, []) :=
  c10_model_validation_bounds (fun _ => true) (fun _ => "H") []
    { email := "a@b.c", name := "Bob", password := "A1x" } 0 (Or.inl (by decide))

theorem jwt_decode_signed_valid (p : TokenPayload) (key : String) (now : Int)
    (h : now < p.exp) : jwt_decode (.signed p key) key now = .ok p := by
  simp [jwt_decode, not_le.mpr h]

theorem jwt_decode_signed_expired (p : TokenPayload) (key : String) (now : Int)
    (h : p.exp ≤ now) : jwt_decode (.signed p key) key now = .expiredSignatureError := by
  simp [jwt_decode, h]

/-- C5: a token issued by `create_access_token` validates to its subject
while `now` is inside the 30-minute expiry window and fails with the
"Token has expired" error from 30 minutes on (in particular 31 minutes
after issuance); a malformed token or a wrong signing key fails with
"Could not validate credentials" and a missing subject claim with "Invalid
authentication credentials" — all three distinct from the expiry error. -/
theorem c5_token_validation_expiry_and_invalid
    (key sub name ip raw k : String) (t now : Int) (p : TokenPayload) :
    (now < t + 30 * 60 →
      token_validate (create_access_token key sub name ip t) key now = .ok sub) ∧
    (t + 30 * 60 ≤ now →
      token_validate (create_access_token key sub name ip t) key now =
        .error ⟨401, "Token has expired"⟩) ∧
    (token_validate (.malformed raw) key now =
      .error ⟨401, "Could not validate credentials"⟩) ∧
    (k ≠ key →
      token_validate (.signed p k) key now =
        .error ⟨401, "Could not validate credentials"⟩) ∧
    (p.sub = none → now < p.exp →
      token_validate (.signed p key) key now =
        .error ⟨401, "Invalid authentication credentials"⟩) ∧
    ((⟨401, "Token has expired"⟩ : HttpError) ≠ ⟨401, "Could not validate credentials"⟩ ∧
      (⟨401, "Token has expired"⟩ : HttpError) ≠ ⟨401, "Invalid authentication credentials"⟩) := by
  refine ⟨fun h => ?_, fun h => ?_, rfl, fun hk => ?_, fun hs hexp => ?_,
    by decide, by decide⟩
  · unfold create_access_token token_validate
    rw [jwt_decode_signed_valid _ _ _ (by simp only [ACCESS_TOKEN_EXPIRE_MINUTES]; omega)]
  · unfold create_access_token token_validate
    rw [jwt_decode_signed_expired _ _ _ (by simp only [ACCESS_TOKEN_EXPIRE_MINUTES]; omega)]
  · simp [token_validate, jwt_decode, hk]
  · unfold token_validate
    rw [jwt_decode_signed_valid p key now hexp]
    simp [hs]

/-- C5 witness: the token issued at `t = 0` with key `K` validates at
`now = 60` and is expired at `now = 1860` (31 minutes); a malformed token,
a token signed with `K2`, and a token without subject give the two invalid
errors. -/
theorem c5_token_validation_witness :
    token_validate (create_access_token "K" "u@x.com" "U" "1.2.3.4" 0) "K" 60 =
      .ok "u@x.com" ∧
    token_validate (create_access_token "K" "u@x.com" "U" "1.2.3.4" 0) "K" 1860 =
      .error ⟨401, "Token has expired"⟩ ∧
    token_validate (.malformed "garbage") "K" 0 =
      .error ⟨401, "Could not validate credentials"⟩ ∧
    token_validate (.signed ⟨some "u@x.com", "U", 1800, 0, "ip"⟩ "K2") "K" 0 =
      .error ⟨401, "Could not validate credentials"⟩ ∧
    token_validate (.signed ⟨none, "U", 100, 0, "ip"⟩ "K") "K" 50 =
      .error ⟨401, "Invalid authentication credentials"⟩ := by
  refine ⟨?_, ?_, ?_, ?_, ?_⟩
  · exact (c5_token_validation_expiry_and_invalid "K" "u@x.com" "U" "1.2.3.4" "garbage"
      "K2" 0 60 ⟨none, "", 0, 0, ""⟩).1 (by norm_num)
  · exact (c5_token_validation_expiry_and_invalid "K" "u@x.com" "U" "1.2.3.4" "garbage"
      "K2" 0 1860 ⟨none, "", 0, 0, ""⟩).2.1 (by norm_num)
  · exact (c5_token_validation_expiry_and_invalid "K" "u@x.com" "U" "1.2.3.4" "garbage"
      "K2" 0 0 ⟨none, "", 0, 0, ""⟩).2.2.1
  · exact (c5_token_validation_expiry_and_invalid "K" "u@x.com" "U" "1.2.3.4" "garbage"
      "K2" 0 0 ⟨some "u@x.com", "U", 1800, 0, "ip"⟩).2.2.2.1 (by decide)
  · exact (c5_token_validation_expiry_and_invalid "K" "u@x.com" "U" "1.2.3.4" "garbage"
      "K2" 0 50 ⟨none, "U", 100, 0, "ip"⟩).2.2.2.2.1 rfl (by norm_num)

theorem update_one_watch_no_match (store : List VideoDoc) (vid uid st : String)
    (h : ∀ v ∈ store, ¬(v.id = vid ∧ v.userId = uid)) :
    update_one_watch store vid uid st = (⟨0, 0⟩, store) := by
  induction store with
  | nil => rfl
  | cons v rest ih =>
    have hv := h v (by simp)
    have hc : (v.id == vid && v.userId == uid) = false := by
      cases hA : v.id == vid with
      | false => simp
      | true =>
        have hni : ¬ v.userId = uid := fun he => hv ⟨eq_of_beq hA, he⟩
        simp [hni]
    have hrest := ih (fun w hw => h w (by simp [hw]))
    simp only [update_one_watch, hc, Bool.false_eq_true, if_false, hrest]

theorem update_one_watch_all_same (store : List VideoDoc) (vid uid st : String)
    (h : ∀ v ∈ store, v.id = vid → v.userId = uid → v.watchStatus = st) :
    (update_one_watch store vid uid st).1.modified_count = 0 ∧
    (update_one_watch store vid uid st).2 = store := by
  induction store with
  | nil => exact ⟨rfl, rfl⟩
  | cons v rest ih =>
    have hrest := ih (fun w hw => h w (by simp [hw]))
    cases hc : (v.id == vid && v.userId == uid) with
    | true =>
      have hm : v.id = vid ∧ v.userId = uid := by
        simpa [Bool.and_eq_true, beq_iff_eq] using hc
      have hst : v.watchStatus = st := h v (by simp) hm.1 hm.2
      have hsb : (v.watchStatus == st) = true := by simp [hst]
      simp [update_one_watch, hc, hsb]
    | false =>
      simp only [update_one_watch, hc, Bool.false_eq_true, if_false]
      exact ⟨hrest.1, by simp [hrest.2]⟩

/-- C6: `update_watch_status` rejects a status outside
`{"watched", "unwatched"}` with 400 leaving the store untouched; with a
valid status it is scoped by both video id and owner, so a video id that
exists only under a different owner yields 404 and the store — including
that other owner's record — is unchanged. -/
theorem c6_update_watch_scoped_by_owner (store : List VideoDoc)
    (vid st caller : String) :
    ((st ≠ "watched" ∧ st ≠ "unwatched") →
      update_watch_status store vid st caller =
        (.error ⟨400, "Invalid watch status"⟩, store)) ∧
    ((st = "watched" ∨ st = "unwatched") →
      (∀ v ∈ store, v.id = vid → v.userId ≠ caller) →
      update_watch_status store vid st caller =
        (.error ⟨404, "Video not found"⟩, store)) := by
  constructor
  · intro h
    have hb : (st == "watched" || st == "unwatched") = false := by
      simp [h.1, h.2]
    simp only [update_watch_status, hb, Bool.not_false, if_true]
  · intro hst hno
    have hb : (st == "watched" || st == "unwatched") = true := by
      rcases hst with rfl | rfl <;> simp
    have hm := update_one_watch_no_match store vid caller st
      (fun v hv hc => hno v hv hc.1 hc.2)
    simp only [update_watch_status, hb, Bool.not_true, if_false, hm]
    simp

/-- C6 witness: status `deleted` is rejected with 400; updating video `v1`,
which exists only under owner `alice@x.com`, as caller `bob@x.com` yields
404 with the store unchanged. -/
theorem c6_update_watch_scoped_by_owner_witness :
    update_watch_status
      [⟨"v1", "T", none, "youtube", "music", .date 0, "watched", "alice@x.com", "", none⟩]
      "v1" "deleted" "bob@x.com" =
      (.error ⟨400, "Invalid watch status"⟩,
        [⟨"v1", "T", none, "youtube", "music", .date 0, "watched", "alice@x.com", "", none⟩]) ∧
    update_watch_status
      [⟨"v1", "T", none, "youtube", "music", .date 0, "watched", "alice@x.com", "", none⟩]
      "v1" "unwatched" "bob@x.com" =
      (.error ⟨404, "Video not found"⟩,
        [⟨"v1", "T", none, "youtube", "music", .date 0, "watched", "alice@x.com", "", none⟩]) := by
  constructor
  · exact (c6_update_watch_scoped_by_owner
      [⟨"v1", "T", none, "youtube", "music", .date 0, "watched", "alice@x.com", "", none⟩]
      "v1" "deleted" "bob@x.com").1 ⟨by decide, by decide⟩
  · exact (c6_update_watch_scoped_by_owner
      [⟨"v1", "T", none, "youtube", "music", .date 0, "watched", "alice@x.com", "", none⟩]
      "v1" "unwatched" "bob@x.com").2 (Or.inr rfl) (by decide)

/-- C7: calling `update_watch_status` with a valid status equal to the
stored video's current status yields 404 "Video not found" instead of
success, because the handler tests `modified_count` (zero when `$set` does
not change the value) rather than `matched_count`. -/
theorem c7_same_status_returns_not_found (store : List VideoDoc)
    (vid caller st : String)
    (hst : st = "watched" ∨ st = "unwatched")
    (hmem : ∃ v ∈ store, v.id = vid ∧ v.userId = caller)
    (hsame : ∀ v ∈ store, v.id = vid → v.userId = caller → v.watchStatus = st) :
    update_watch_status store vid st caller =
      (.error ⟨404, "Video not found"⟩, store) := by
  have hb : (st == "watched" || st == "unwatched") = true := by
    rcases hst with rfl | rfl <;> simp
  obtain ⟨h0, h2⟩ := update_one_watch_all_same store vid caller st hsame
  simp only [update_watch_status, hb, Bool.not_true, if_false, h0, h2]
  simp

/-- C7 witness: setting video `v1` of owner `alice@x.com` to its current
status `watched` yields 404. -/
theorem c7_same_status_returns_not_found_witness :
    update_watch_status
      [⟨"v1", "T", none, "youtube", "music", .date 0, "watched", "alice@x.com", "", none⟩]
      "v1" "watched" "alice@x.com" =
      (.error ⟨404, "Video not found"⟩,
        [⟨"v1", "T", none, "youtube", "music", .date 0, "watched", "alice@x.com", "", none⟩]) :=
  c7_same_status_returns_not_found
    [⟨"v1", "T", none, "youtube", "music", .date 0, "watched", "alice@x.com", "", none⟩]
    "v1" "alice@x.com" "watched" (Or.inl rfl)
    ⟨⟨"v1", "T", none, "youtube", "music", .date 0, "watched", "alice@x.com", "", none⟩,
      by decide, by decide⟩
    (by decide)

/-- C8: YouTube ingestion error handling — a URL without `list=` yields
400 "Invalid YouTube playlist URL" with no upstream call; an upstream 403
yields 403; any other non-200 yields 400 "Failed to fetch playlist..."; a
200 response with an empty `items` list yields 404 — and in every failure
case the video store is unchanged. -/
theorem c8_youtube_ingestion_error_mapping (url : String) (resp : YTResponse)
    (oracle : String → String → ClassifierOutcome) (store : List VideoDoc)
    (userEmail : String) (now : Int) :
    (hasListParam url = false →
      add_youtube_playlist url resp oracle store userEmail now =
        ⟨.error ⟨400, "Invalid YouTube playlist URL"⟩, store, false⟩) ∧
    (hasListParam url = true → resp.status_code = 403 →
      add_youtube_playlist url resp oracle store userEmail now =
        ⟨.error ⟨403, "YouTube API key is invalid or quota exceeded"⟩, store, true⟩) ∧
    (hasListParam url = true → resp.status_code ≠ 403 → resp.status_code ≠ 200 →
      add_youtube_playlist url resp oracle store userEmail now =
        ⟨.error ⟨400, "Failed to fetch playlist. Please check the URL and try again."⟩,
          store, true⟩) ∧
    (hasListParam url = true → resp.status_code = 200 → resp.items = [] →
      add_youtube_playlist url resp oracle store userEmail now =
        ⟨.error ⟨404, "No videos found in playlist"⟩, store, true⟩) := by
  refine ⟨fun h => ?_, fun h h403 => ?_, fun h h403 h200 => ?_, fun h h200 hitems => ?_⟩
  · simp [add_youtube_playlist, h]
  · simp [add_youtube_playlist, h, h403]
  · simp [add_youtube_playlist, h, h403, h200]
  · simp [add_youtube_playlist, h, h200, hitems]

/-- C8 witness: concrete runs of the four failure cases on an empty store. -/
theorem c8_youtube_ingestion_error_mapping_witness :
    add_youtube_playlist "https://youtu.be/abc" ⟨200, []⟩ (fun _ _ => .exc) [] "u@x.com" 0 =
      ⟨.error ⟨400, "Invalid YouTube playlist URL"⟩, [], false⟩ ∧
    add_youtube_playlist "https://www.youtube.com/playlist?list=PL1" ⟨403, []⟩
        (fun _ _ => .exc) [] "u@x.com" 0 =
      ⟨.error ⟨403, "YouTube API key is invalid or quota exceeded"⟩, [], true⟩ ∧
    add_youtube_playlist "https://www.youtube.com/playlist?list=PL1" ⟨500, []⟩
        (fun _ _ => .exc) [] "u@x.com" 0 =
      ⟨.error ⟨400, "Failed to fetch playlist. Please check the URL and try again."⟩,
        [], true⟩ ∧
    add_youtube_playlist "https://www.youtube.com/playlist?list=PL1" ⟨200, []⟩
        (fun _ _ => .exc) [] "u@x.com" 0 =
      ⟨.error ⟨404, "No videos found in playlist"⟩, [], true⟩ := by
  refine ⟨?_, ?_, ?_, ?_⟩
  · exact (c8_youtube_ingestion_error_mapping "https://youtu.be/abc" ⟨200, []⟩
      (fun _ _ => .exc) [] "u@x.com" 0).1 (by decide)
  · exact (c8_youtube_ingestion_error_mapping "https://www.youtube.com/playlist?list=PL1"
      ⟨403, []⟩ (fun _ _ => .exc) [] "u@x.com" 0).2.1 (by decide) rfl
  · exact (c8_youtube_ingestion_error_mapping "https://www.youtube.com/playlist?list=PL1"
      ⟨500, []⟩ (fun _ _ => .exc) [] "u@x.com" 0).2.2.1 (by decide) (by decide) (by decide)
  · exact (c8_youtube_ingestion_error_mapping "https://www.youtube.com/playlist?list=PL1"
      ⟨200, []⟩ (fun _ _ => .exc) [] "u@x.com" 0).2.2.2 (by decide) rfl rfl

/-- C9: the genre classifier adapter is total — every outcome of the
external classifier maps to a genre from the fixed set (so a classifier
failure can never abort ingestion) — and a raised exception, an empty label
list, and an unmapped top label each yield the fallback genre "other". -/
theorem c9_classifier_failure_falls_back_to_other :
    (∀ o : ClassifierOutcome,
      classify_video_genre o ∈ "other" :: genre_mapping.map Prod.snd) ∧
    classify_video_genre .exc = "other" ∧
    classify_video_genre (.ok []) = "other" ∧
    (∀ top rest, genre_mapping.find? (fun p => p.1 == top) = none →
      classify_video_genre (.ok (top :: rest)) = "other") := by
  refine ⟨?_, rfl, rfl, ?_⟩
  · intro o
    match o with
    | .exc => simp [classify_video_genre]
    | .ok [] => simp [classify_video_genre]
    | .ok (top :: rest) =>
      show ((genre_mapping.find? (fun p => p.1 == top)).map (fun p => p.2)).getD "other" ∈
        "other" :: genre_mapping.map Prod.snd
      cases hf : genre_mapping.find? (fun p => p.1 == top) with
      | none => simp
      | some q =>
        have hq := List.mem_of_find?_eq_some hf
        simp only [Option.map_some', Option.getD_some]
        exact List.mem_cons_of_mem _ (List.mem_map_of_mem _ hq)
  · intro top rest hf
    show ((genre_mapping.find? (fun p => p.1 == top)).map (fun p => p.2)).getD "other" = "other"
    rw [hf]
    rfl

/-- C9 witness: an unmapped top label concretely yields "other". -/
theorem c9_classifier_failure_falls_back_to_other_witness :
    classify_video_genre (.ok ["Cooking With Gas"]) = "other" :=
  c9_classifier_failure_falls_back_to_other.2.2.2 "Cooking With Gas" [] (by decide)

/-- C3 (code evaluated at the failing input): both an Instagram video and a
YouTube video are ingested unwatched at time 0, but 15 days later the
sweeper's query — `$lte` with a date bound, which under MongoDB semantics
matches only date-typed `savedAt` — selects only the YouTube record, because
the Instagram ingester stores `savedAt` as an isoformat string. Only the
YouTube video's owner/title pair reaches the notification collaborator. -/
theorem c3_sweeper_misses_stale_instagram_video :
    (mkInstagramVideo (fun _ _ => .exc) "u@x.com" 0
        ⟨"m1", "VIDEO", some "th", "https://www.instagram.com/p/m1/", "cap"⟩).watchStatus
      = "unwatched" ∧
    (mkYtVideo (fun _ _ => .exc) "u@x.com" 0
        ⟨"y1", "T", "", ⟨none, none, none, none⟩⟩).watchStatus = "unwatched" ∧
    check_unwatched_videos_query
      [mkInstagramVideo (fun _ _ => .exc) "u@x.com" 0
          ⟨"m1", "VIDEO", some "th", "https://www.instagram.com/p/m1/", "cap"⟩,
        mkYtVideo (fun _ _ => .exc) "u@x.com" 0
          ⟨"y1", "T", "", ⟨none, none, none, none⟩⟩]
      (15 * 86400)
      = [mkYtVideo (fun _ _ => .exc) "u@x.com" 0
          ⟨"y1", "T", "", ⟨none, none, none, none⟩⟩] ∧
    sweep_notifications
      [mkInstagramVideo (fun _ _ => .exc) "u@x.com" 0
          ⟨"m1", "VIDEO", some "th", "https://www.instagram.com/p/m1/", "cap"⟩,
        mkYtVideo (fun _ _ => .exc) "u@x.com" 0
          ⟨"y1", "T", "", ⟨none, none, none, none⟩⟩]
      (15 * 86400)
      = [("u@x.com", "T")] := by
  refine ⟨rfl, rfl, ?_, ?_⟩ <;> decide

/-- C3 (positive half, for date-typed records): one sweep iteration selects
exactly the stored videos with `watchStatus = "unwatched"` and a date-typed
`savedAt` at most `now - 14 days`; every YouTube-ingested video is
date-typed, so every stale unwatched YouTube video is passed on. -/
theorem c3_sweeper_selects_stale_dated_videos (store : List VideoDoc) (now : Int)
    (v : VideoDoc) :
    (v ∈ check_unwatched_videos_query store now ↔
      v ∈ store ∧ v.watchStatus = "unwatched" ∧
        ∃ t, v.savedAt = .date t ∧ t ≤ now - 14 * 86400) ∧
    (∀ oracle userEmail t0 item, v = mkYtVideo oracle userEmail t0 item →
      v ∈ store → t0 ≤ now - 14 * 86400 →
      (v.userId, v.title) ∈ sweep_notifications store now) := by
  constructor
  · rw [check_unwatched_videos_query, List.mem_filter]
    constructor
    · rintro ⟨hm, hp⟩
      simp only [Bool.and_eq_true, beq_iff_eq] at hp
      refine ⟨hm, hp.1, ?_⟩
      cases hs : v.savedAt with
      | date t =>
        refine ⟨t, rfl, ?_⟩
        have := hp.2
        rw [hs] at this
        simp only [bsonDateLte, two_weeks_ago, decide_eq_true_eq] at this
        omega
      | str s =>
        exfalso
        have := hp.2
        rw [hs] at this
        simp [bsonDateLte] at this
    · rintro ⟨hm, hw, t, hs, ht⟩
      refine ⟨hm, ?_⟩
      simp only [Bool.and_eq_true, beq_iff_eq]
      refine ⟨hw, ?_⟩
      rw [hs]
      simp only [bsonDateLte, two_weeks_ago, decide_eq_true_eq]
      omega
  · intro oracle userEmail t0 item hv hm ht
    have hsel : v ∈ check_unwatched_videos_query store now := by
      rw [check_unwatched_videos_query, List.mem_filter]
      refine ⟨hm, ?_⟩
      simp only [Bool.and_eq_true, beq_iff_eq]
      subst hv
      refine ⟨rfl, ?_⟩
      simp only [mkYtVideo, bsonDateLte, two_weeks_ago, decide_eq_true_eq]
      omega
    exact List.mem_map_of_mem _ hsel

/-- C3 witness for the positive half: a YouTube video saved at time 0 is
selected and notified 15 days later. -/
theorem c3_sweeper_selects_stale_dated_videos_witness :
    ("u@x.com", "T") ∈ sweep_notifications
      [mkYtVideo (fun _ _ => .exc) "u@x.com" 0 ⟨"y1", "T", "", ⟨none, none, none, none⟩⟩]
      (15 * 86400) :=
  (c3_sweeper_selects_stale_dated_videos
    [mkYtVideo (fun _ _ => .exc) "u@x.com" 0 ⟨"y1", "T", "", ⟨none, none, none, none⟩⟩]
    (15 * 86400)
    (mkYtVideo (fun _ _ => .exc) "u@x.com" 0 ⟨"y1", "T", "", ⟨none, none, none, none⟩⟩)).2
    (fun _ _ => .exc) "u@x.com" 0 ⟨"y1", "T", "", ⟨none, none, none, none⟩⟩ rfl
    (by simp) (by norm_num)

end ProdVision
